import Mathlib

/-!
Verification of the google_books_crawler data-preparation pipeline
(`data_preparation/data_preparation.py`) against its specification.

The Python module is shallowly embedded below:
* pure record extraction (`extract_fields`, `parse_response`) becomes pure
  Lean functions, with `Option`/`Except` marking where a Python exception
  would propagate;
* the query generator (`get_query`) becomes the eager list of its yields,
  with the lazy `ZeroDivisionError` represented as an `Except.error`;
* the checkpoint directory becomes an association list from batch index to
  the list of records stored in that artifact (the CSV serialization layer
  is modelled as the identity on record lists, and the deterministic
  enumeration of `_partNNNN.csv` file names is modelled as index order);
* the asyncio semaphore protecting `safe_get_and_write` becomes a labelled
  transition system over per-task states.
-/

namespace BooksCrawler

/-- One entry of `volumeInfo["industryIdentifiers"]`: a JSON object whose
`"type"` and `"identifier"` keys are read with `.get(..., None)`. -/
structure IndustryIdentifier where
  type : Option String
  identifier : Option String
deriving DecidableEq, Repr

/-- The `volumeInfo` object of an API item, holding exactly the keys read by
`extract_fields`.  `thumbnail` stands for the nested lookup
`volume_info.get("imageLinks", {}).get("thumbnail", None)`. -/
structure VolumeInfo where
  title : Option String := none
  subtitle : Option String := none
  authors : List String := []
  categories : List String := []
  thumbnail : Option String := none
  description : Option String := none
  publishedDate : Option String := none
  industryIdentifiers : List IndustryIdentifier := []
deriving DecidableEq, Repr

/-- One element of the API response's `items` collection; `volumeInfo = none`
models an item without a `"volumeInfo"` key (`item.get("volumeInfo", None)`
yields Python `None`). -/
structure Item where
  volumeInfo : Option VolumeInfo
deriving DecidableEq, Repr

/-- The tuple returned by `extract_fields`, i.e. one row of the checkpoint
CSV in the fixed `COLUMNS` order. -/
structure Record where
  isbn10 : Option String
  isbn13 : Option String
  title : Option String
  subtitle : Option String
  authors : Option String
  categories : Option String
  thumbnail : Option String
  description : Option String
  published_year : Option String
deriving DecidableEq, Repr

/-- Python `str.isdigit()` (restricted to ASCII data, which is all the repo
feeds it): true iff the string is nonempty and every character is a digit. -/
def pyIsDigit (s : String) : Bool :=
  !s.isEmpty && s.data.all (fun c => c.isDigit)

/-- The `for idx in volume_info.get("industryIdentifiers", {})` loop of
`extract_fields`: a left fold in which a later `ISBN_10`/`ISBN_13` entry
overwrites an earlier one of the same type. -/
def foldIdentifiers (ids : List IndustryIdentifier) : Option String × Option String :=
  ids.foldl
    (fun acc idx =>
      if idx.type = some "ISBN_10" then (idx.identifier, acc.2)
      else if idx.type = some "ISBN_13" then (acc.1, idx.identifier)
      else acc)
    (none, none)

/-- `published_date[:4] if published_date and published_date.isdigit() else None`:
the whole string (not its first four characters) must be digits. -/
def pyPublishedYear (published_date : Option String) : Option String :=
  match published_date with
  | none => none
  | some s => if !s.isEmpty && pyIsDigit s then some (s.take 4) else none

/-- `extract_fields(item)`.  Returns `none` when the Python code would raise:
`item.get("volumeInfo", None)` followed by `volume_info.get(...)` raises
`AttributeError` when the item has no `volumeInfo` object. -/
def extract_fields (item : Item) : Option Record :=
  match item.volumeInfo with
  | none => none
  | some volume_info =>
    let ids := foldIdentifiers volume_info.industryIdentifiers
    some {
      isbn10 := ids.1
      isbn13 := ids.2
      title := volume_info.title
      subtitle := volume_info.subtitle
      authors :=
        if volume_info.authors.isEmpty then none
        else some (String.intercalate ";" volume_info.authors)
      categories :=
        if volume_info.categories.isEmpty then none
        else some (String.intercalate ";" volume_info.categories)
      thumbnail := volume_info.thumbnail
      description := volume_info.description
      published_year := pyPublishedYear volume_info.publishedDate }

/-- Outcome of `get_info_from_api` as observed by `parse_response`:
either the `items` collection of the JSON body (absent `items` is already
normalised to the empty collection by `response_json.get("items", {})`),
or one of the three classes of exception its `except` clauses distinguish. -/
inductive FetchResult where
  | ok (items : List Item)
  | clientError (status : Option Nat) (message : Option String)
  | keyError
  | otherError
deriving DecidableEq

/-- `parse_response`.  The `try` block only guards the awaited fetch, so the
three `except` clauses each degrade to the empty book list; the extraction
loop sits in the `else:` clause, outside the handlers, so an exception
raised by `extract_fields` propagates (modelled by `none`). -/
def parse_response (fetched : FetchResult) : Option (List Record) :=
  match fetched with
  | .clientError _ _ => some []
  | .keyError => some []
  | .otherError => some []
  | .ok items => items.mapM extract_fields

/-- Python list slicing `l[start:end]` for the non-negative bounds at which
`get_query` ever evaluates it (an out-of-range `end` clamps to the list's
length, exactly as `List.take` does). -/
def pySlice (l : List String) (start stop : Nat) : List String :=
  (l.take stop).drop start

/-- The batches cut by `get_query`: `for i in range(len(list_isbn) // max_n)`
with `start = i * max_n`, `end = max_n * (1 + i)`.  `max_n` is kept as an
integer: `max_n = 0` makes `len(list_isbn) // max_n` raise
`ZeroDivisionError` (when the generator is first advanced), and a negative
`max_n` makes the floor division non-positive, so `range` is empty.  The
slice indices are only evaluated inside the loop, i.e. when `max_n > 0`,
where `Int.toNat` is the identity on them. -/
def get_query_batches (list_isbn : List String) (max_n : Int) :
    Except String (List (List String)) :=
  if max_n = 0 then .error "ZeroDivisionError: integer division or modulo by zero"
  else .ok <|
    (List.range (Int.fdiv list_isbn.length max_n).toNat).map fun (i : Nat) =>
      pySlice list_isbn ((i : Int) * max_n).toNat (max_n * (1 + (i : Int))).toNat

/-- The query string `get_query` yields for one batch:
`GOOGLE_BOOKS_API + "?q=isbn:" + "+OR+isbn:".join(batch) + "&maxResults=40"`.
The base URL comes from `config.ini` (not part of the repository), so it is
a parameter here. -/
def render_query (api : String) (batch : List String) : String :=
  api ++ "?q=isbn:" ++ String.intercalate "+OR+isbn:" batch ++ "&maxResults=40"

/-- `get_query(list_isbn, max_n)` as the eager list of its yields. -/
def get_query (api : String) (list_isbn : List String) (max_n : Int) :
    Except String (List String) :=
  (get_query_batches list_isbn max_n).map (List.map (render_query api))

/-- The checkpoint directory `TMP_DATA_PATH`: one artifact `_part{idx:04d}.csv`
per batch index, modelled as an association list sorted by index (the
deterministic enumeration order of the zero-padded file names).  The CSV
payload is modelled as the list of records it holds. -/
abbrev Store := List (Nat × List Record)

/-- `output_path.is_file()`: does an artifact for this batch index exist? -/
def artifact_exists (store : Store) (idx : Nat) : Bool :=
  store.any (fun a => a.1 = idx)

/-- `write_to_csv(response, output_path)`: (over)write the artifact for one
batch index, keeping the namespace sorted by index. -/
def write_artifact (store : Store) (idx : Nat) (recs : List Record) : Store :=
  match store with
  | [] => [(idx, recs)]
  | a :: rest =>
    if idx < a.1 then (idx, recs) :: a :: rest
    else if idx = a.1 then (idx, recs) :: rest
    else a :: write_artifact rest idx recs

/-- The batch indices `create_coroutines` actually schedules: in its `for`
loop every `is_file` check runs before any task body (the loop has no
await), so all checks observe the initial store; a batch is scheduled iff
its artifact does not yet exist. -/
def scheduled_batches (store : Store) (numBatches : Nat) : List Nat :=
  (List.range numBatches).filter (fun idx => !artifact_exists store idx)

/-- What the remote API does for a given batch index during one run: the
argument of `parse_response` for that batch's query. -/
abbrev FetchEnv := Nat → FetchResult

/-- `safe_get_and_write` for one batch: parse the response and write the
resulting rows (possibly zero) to that batch's artifact.  If
`parse_response` raises (see its model), the task fails and
`asyncio.gather` propagates the exception (modelled by `Except.error`). -/
def safe_get_and_write (env : FetchEnv) (store : Store) (idx : Nat) :
    Except String Store :=
  match parse_response (env idx) with
  | none => .error "unhandled exception in fetch task"
  | some books => .ok (write_artifact store idx books)

/-- `create_coroutines`: run the scheduled batches.  The tasks run
concurrently, but each writes only its own index's artifact, so the final
store is their order-independent accumulation; it is computed here as a
left fold over the scheduled indices. -/
def create_coroutines (env : FetchEnv) (store : Store) (numBatches : Nat) :
    Except String Store :=
  (scheduled_batches store numBatches).foldlM (safe_get_and_write env) store

/-- `merge_files`: read every artifact in the checkpoint namespace and
concatenate their rows.  With zero artifacts, `pd.concat([])` raises
`ValueError`. -/
def merge_files (store : Store) : Except String (List Record) :=
  if store.isEmpty then .error "ValueError: No objects to concatenate"
  else .ok (store.flatMap (fun a => a.2))

/-- One whole run (`__main__` after the isbn list is batched): fetch all
scheduled batches, then merge; returns the final checkpoint store and the
rows of the OutputArtifact. -/
def run_pipeline (env : FetchEnv) (store : Store) (numBatches : Nat) :
    Except String (Store × List Record) := do
  let st ← create_coroutines env store numBatches
  let rows ← merge_files st
  return (st, rows)

/-- State of one fetch task with respect to the semaphore `sem`:
not yet entered `async with sem` / holding a slot / finished (slot
released). -/
inductive TaskState where
  | pending
  | running
  | done
deriving DecidableEq, Repr

/-- Number of tasks currently inside the `async with sem` block. -/
def runningCount (ts : List TaskState) : Nat :=
  ts.countP (fun t => t = TaskState.running)

/-- The semaphore protocol of `safe_get_and_write`, as a transition system
over the task list.  `start` is the `async with sem` entry: it only fires
while fewer than `maxConc` tasks hold a slot (`asyncio.Semaphore` blocks
otherwise).  `finish` is the block exit on ANY path — normal return or an
exception from `get_and_write` (`failed`) — because `async with` releases
the semaphore in both cases. -/
inductive SemStep (maxConc : Nat) : List TaskState → List TaskState → Prop where
  | start (ts : List TaskState) (i : Nat)
      (hp : ts.get? i = some TaskState.pending)
      (hcap : runningCount ts < maxConc) :
      SemStep maxConc ts (ts.set i TaskState.running)
  | finish (ts : List TaskState) (i : Nat) (failed : Bool)
      (hr : ts.get? i = some TaskState.running) :
      SemStep maxConc ts (ts.set i TaskState.done)

/-- States reachable during a fetch phase with `n` scheduled tasks, all
initially pending. -/
def SemReachable (maxConc n : Nat) (ts : List TaskState) : Prop :=
  Relation.ReflTransGen (SemStep maxConc) (List.replicate n TaskState.pending) ts

/-- The item of the extraction test: both industry identifiers present and
`publishedDate = "2001-05-01"`. -/
def c1Item : Item :=
  ⟨some { publishedDate := some "2001-05-01",
          industryIdentifiers :=
            [⟨some "ISBN_10", some "X"⟩, ⟨some "ISBN_13", some "Y"⟩] }⟩

deriving instance DecidableEq for Except

/-- `pyPublishedYear`, characterised in the spec's vocabulary: the year is
present exactly when the whole published-date string is nonempty and every
one of its characters is a digit. -/
theorem pyPublishedYear_eq_spec (pd : Option String) :
    pyPublishedYear pd =
      match pd with
      | none => none
      | some s =>
        if s ≠ "" ∧ ∀ c ∈ s.data, c.isDigit then some (s.take 4) else none := by
  cases pd with
  | none => rfl
  | some s =>
    simp only [pyPublishedYear, pyIsDigit]
    by_cases he : s = ""
    · subst he; rfl
    · have hne : s.isEmpty = false := by
        rw [← Bool.not_eq_true, String.isEmpty_iff]
        exact he
      by_cases hall : ∀ c ∈ s.data, c.isDigit
      · have hb : s.data.all (fun c => c.isDigit) = true := List.all_eq_true.mpr hall
        rw [if_pos (And.intro he hall)]
        simp [hne, hb]
      · have hb : s.data.all (fun c => c.isDigit) = false := by
          rw [← Bool.not_eq_true, List.all_eq_true]
          simpa using hall
        simp [hne, hb, he, hall]

/-- C1 counterexample: on the very item the claim describes
(`publishedDate = "2001-05-01"`, identifiers `X`/`Y`), `extract_fields`
does extract `isbn10 = "X"` and `isbn13 = "Y"`, but `published_year` is
absent rather than `"2001"`: the code tests `published_date.isdigit()` on
the whole string, and `"2001-05-01"` contains non-digits. -/
theorem c1_counterexample :
    (extract_fields c1Item).map Record.isbn10 = some (some "X") ∧
    (extract_fields c1Item).map Record.isbn13 = some (some "Y") ∧
    (extract_fields c1Item).map Record.published_year = some none := by
  decide

/-- C1 (amended): with the two industry identifiers the Record has
`isbn10 = X` and `isbn13 = Y`, and `publishedYear` is the first four
characters of the published date only when the ENTIRE published-date
string is nonempty and all digits (so it is absent both for
`"2001-05-01"` and for `"unknown"`). -/
theorem c1_extraction (X Y : String) (vi : VolumeInfo)
    (hids : vi.industryIdentifiers =
      [⟨some "ISBN_10", some X⟩, ⟨some "ISBN_13", some Y⟩]) :
    ∃ r, extract_fields ⟨some vi⟩ = some r ∧
      r.isbn10 = some X ∧ r.isbn13 = some Y ∧
      r.published_year =
        match vi.publishedDate with
        | none => none
        | some s =>
          if s ≠ "" ∧ ∀ c ∈ s.data, c.isDigit then some (s.take 4) else none := by
  refine ⟨_, rfl, ?_, ?_, ?_⟩
  · simp [extract_fields, foldIdentifiers, hids]
  · simp [extract_fields, foldIdentifiers, hids]
  · simpa [extract_fields] using pyPublishedYear_eq_spec vi.publishedDate

/-- C1 witness: for the all-digit date `"2001"` the year is extracted. -/
theorem c1_witness :
    ∃ r, extract_fields
        ⟨some { publishedDate := some "2001",
                industryIdentifiers :=
                  [⟨some "ISBN_10", some "X"⟩, ⟨some "ISBN_13", some "Y"⟩] }⟩ = some r ∧
      r.isbn10 = some "X" ∧ r.isbn13 = some "Y" ∧ r.published_year = some "2001" := by
  obtain ⟨r, h1, h2, h3, h4⟩ :=
    c1_extraction "X" "Y"
      { publishedDate := some "2001",
        industryIdentifiers :=
          [⟨some "ISBN_10", some "X"⟩, ⟨some "ISBN_13", some "Y"⟩] } rfl
  exact ⟨r, h1, h2, h3, by rw [h4]; decide⟩

/-- `extract_fields` raises exactly when the item has no volume-info. -/
theorem extract_fields_isSome (it : Item) :
    (extract_fields it).isSome = it.volumeInfo.isSome := by
  obtain ⟨vi⟩ := it
  cases vi <;> rfl

/-- The extraction loop succeeds on a batch of items as soon as every item
carries a volume-info object. -/
theorem mapM_extract_fields_isSome (items : List Item)
    (h : ∀ it ∈ items, it.volumeInfo.isSome = true) :
    (items.mapM extract_fields).isSome = true := by
  induction items with
  | nil => rfl
  | cons it rest ih =>
    have h1 : (extract_fields it).isSome = true := by
      rw [extract_fields_isSome]
      exact h it (by simp)
    obtain ⟨r, hr⟩ := Option.isSome_iff_exists.mp h1
    have h2 := ih (fun x hx => h x (by simp [hx]))
    obtain ⟨rs, hrs⟩ := Option.isSome_iff_exists.mp h2
    rw [List.mapM_cons, hr, hrs]
    rfl

/-- C2 counterexample: a response whose single item lacks a `volumeInfo`
object makes `parse_response` raise (`AttributeError` from
`None.get(...)` inside the `else:` clause, which no `except` guards), so
it is not total on unexpected item structures. -/
theorem c2_counterexample :
    parse_response (FetchResult.ok [Item.mk none]) = none := by
  decide

/-- C2 (amended): every exception raised by the HTTP fetch itself degrades
to the empty record list, but parsing is total only on responses whose
items all carry a volume-info object; an item without one raises out of
`parse_response`. -/
theorem c2_totality :
    (∀ status msg, parse_response (FetchResult.clientError status msg) = some []) ∧
    parse_response FetchResult.keyError = some [] ∧
    parse_response FetchResult.otherError = some [] ∧
    ∀ items : List Item, (∀ it ∈ items, it.volumeInfo.isSome = true) →
      (parse_response (FetchResult.ok items)).isSome = true := by
  refine ⟨fun _ _ => rfl, rfl, rfl, fun items h => ?_⟩
  simpa [parse_response] using mapM_extract_fields_isSome items h

/-- C2 witness: a fetch error and a well-formed one-item response. -/
theorem c2_witness :
    parse_response (FetchResult.clientError (some 500) none) = some [] ∧
    (parse_response (FetchResult.ok [Item.mk (some {})])).isSome = true :=
  ⟨c2_totality.1 (some 500) none,
   c2_totality.2.2.2 [Item.mk (some {})] (by decide)⟩

/-- C3 counterexample: with zero checkpoint artifacts the merge does NOT
produce an output with zero data rows. -/
theorem c3_counterexample : merge_files ([] : Store) ≠ Except.ok [] := by
  decide

/-- C3 (amended): with zero checkpoint artifacts present, `merge_files`
fails — `pd.concat` of the empty frame list raises `ValueError` — and no
OutputArtifact is produced. -/
theorem c3_empty_namespace :
    merge_files ([] : Store) = Except.error "ValueError: No objects to concatenate" :=
  rfl

/-- C8 counterexample: with `batchSize = -1` and five identifiers the
batcher silently yields zero batches; no InvalidConfiguration (or any
other) error is raised. -/
theorem c8_counterexample :
    get_query_batches ["a", "b", "c", "d", "e"] (-1) = Except.ok [] := by
  decide

/-- C8 (amended): the code validates nothing.  `batchSize = 0` raises
`ZeroDivisionError` when the generator is first advanced (not a pre-flight
InvalidConfiguration), and any negative `batchSize` silently produces zero
batches with no error at all. -/
theorem c8_no_validation (l : List String) (B : Int) (hB : B < 0) :
    get_query_batches l 0 =
      Except.error "ZeroDivisionError: integer division or modulo by zero" ∧
    get_query_batches l B = Except.ok [] := by
  constructor
  · rfl
  · have hne : B ≠ 0 := by omega
    have hfd : Int.fdiv (l.length : Int) B ≤ 0 :=
      Int.fdiv_nonpos (by omega) (le_of_lt hB)
    have ht : (Int.fdiv (l.length : Int) B).toNat = 0 := by omega
    simp [get_query_batches, hne, ht]

/-- C8 witness: batch sizes `0` and `-1` on a one-identifier list. -/
theorem c8_witness :
    get_query_batches ["a"] 0 =
      Except.error "ZeroDivisionError: integer division or modulo by zero" ∧
    get_query_batches ["a"] (-1) = Except.ok [] :=
  c8_no_validation ["a"] (-1) (by decide)

/-- For a positive batch size the slice bounds of `get_query` are the
expected natural numbers, so batch `i` is drop-then-take. -/
theorem pySlice_eq_drop_take (l : List String) (B : Int) (hB : 0 < B) (i : Nat) :
    pySlice l ((i : Int) * B).toNat (B * (1 + (i : Int))).toNat
      = (l.drop (i * B.toNat)).take B.toNat := by
  obtain ⟨b, rfl⟩ : ∃ b : Nat, B = (b : Int) :=
    ⟨B.toNat, (Int.toNat_of_nonneg hB.le).symm⟩
  have h1 : ((i : Int) * (b : Int)).toNat = i * b := by
    rw [← Int.natCast_mul, Int.toNat_ofNat]
  have h2 : ((b : Int) * (1 + (i : Int))).toNat = b * (1 + i) := by
    rw [show ((1 : Int) + (i : Int)) = ((1 + i : Nat) : Int) by push_cast; ring]
    rw [← Int.natCast_mul, Int.toNat_ofNat]
  rw [pySlice, h1, h2, List.drop_take, Int.toNat_ofNat]
  have h3 : b * (1 + i) - i * b = b := by
    rw [Nat.mul_add, Nat.mul_one, Nat.mul_comm i b, Nat.add_sub_cancel]
  rw [h3]

/-- For a positive batch size `get_query_batches` succeeds and cuts
`⌊L / B⌋` drop-take slices. -/
theorem get_query_batches_pos (l : List String) (B : Int) (hB : 0 < B) :
    get_query_batches l B =
      Except.ok ((List.range (l.length / B.toNat)).map
        (fun i => (l.drop (i * B.toNat)).take B.toNat)) := by
  have hndiv : (Int.fdiv (l.length : Int) B).toNat = l.length / B.toNat := by
    obtain ⟨b, rfl⟩ : ∃ b : Nat, B = (b : Int) :=
      ⟨B.toNat, (Int.toNat_of_nonneg hB.le).symm⟩
    rw [← Int.ofNat_fdiv, Int.toNat_ofNat, Int.toNat_ofNat]
  rw [get_query_batches, if_neg (by omega : ¬ B = 0), hndiv]
  exact congrArg Except.ok (List.map_congr_left fun i _ => pySlice_eq_drop_take l B hB i)

/-- Every batch cut by a positive batch size `b` from inside the first
`⌊L / b⌋` slices is full: it has exactly `b` members. -/
theorem batch_length_eq (l : List String) (b i : Nat) (hi : i < l.length / b) :
    ((l.drop (i * b)).take b).length = b := by
  have h1 : (i + 1) * b ≤ l.length / b * b :=
    Nat.mul_le_mul_right b (Nat.succ_le_of_lt hi)
  have h2 : l.length / b * b ≤ l.length := Nat.div_mul_le_self _ _
  have h3 : b + i * b ≤ l.length := by
    calc b + i * b = (i + 1) * b := by ring
    _ ≤ l.length / b * b := h1
    _ ≤ l.length := h2
  rw [List.length_take, List.length_drop, Nat.min_eq_left (Nat.le_sub_of_add_le h3)]

/-- Concatenating the first `n` full `b`-slices of `l` gives its first
`n * b` elements. -/
theorem flatten_full_slices (l : List String) (b : Nat) :
    ∀ n : Nat, ((List.range n).map (fun i => (l.drop (i * b)).take b)).flatten
      = l.take (n * b)
  | 0 => by simp
  | n + 1 => by
    rw [List.range_succ, List.map_append, List.flatten_append,
      flatten_full_slices l b n]
    have h1 : (n + 1) * b = n * b + b := by ring
    rw [h1, List.take_add]
    simp

/-- C4: for a positive batch size `B`, the batcher yields exactly
`⌊L / B⌋` batches, batch `i` is the identifier slice `[i*B, (i+1)*B)` in
input order, and their concatenation is the first `⌊L / B⌋ * B`
identifiers — the trailing `L mod B` identifiers appear in no batch. -/
theorem c4_partition (l : List String) (B : Int) (hB : 0 < B) :
    ∃ batches, get_query_batches l B = Except.ok batches ∧
      batches.length = l.length / B.toNat ∧
      (∀ i, (hi : i < batches.length) →
        batches[i] = (l.drop (i * B.toNat)).take B.toNat) ∧
      batches.flatten = l.take (l.length / B.toNat * B.toNat) := by
  refine ⟨_, get_query_batches_pos l B hB, ?_, ?_, ?_⟩
  · simp
  · intro i hi
    simp at hi
    simp [hi]
  · exact flatten_full_slices l B.toNat (l.length / B.toNat)

/-- C4 witness: five identifiers, batch size two: two batches, the fifth
identifier dropped. -/
theorem c4_witness :
    ∃ batches, get_query_batches ["a", "b", "c", "d", "e"] 2 = Except.ok batches ∧
      batches.length = ["a", "b", "c", "d", "e"].length / (2 : Int).toNat ∧
      (∀ i, (hi : i < batches.length) →
        batches[i] = (["a", "b", "c", "d", "e"].drop (i * (2 : Int).toNat)).take
          (2 : Int).toNat) ∧
      batches.flatten = ["a", "b", "c", "d", "e"].take
        (["a", "b", "c", "d", "e"].length / (2 : Int).toNat * (2 : Int).toNat) :=
  c4_partition ["a", "b", "c", "d", "e"] 2 (by decide)

/-- C10: every query string `get_query` yields ends with the hard-coded
suffix `"&maxResults=40"` whatever the batch size is; and when the batch
size exceeds 40 every yielded batch embeds more than 40 identifiers, i.e.
more identifiers than the maximum number of results the query asks for. -/
theorem c10_max_results (api : String) (l : List String) (B : Int) :
    (∀ qs, get_query api l B = Except.ok qs →
      ∀ q ∈ qs, ∃ p, q = p ++ "&maxResults=40") ∧
    (40 < B → ∀ batches, get_query_batches l B = Except.ok batches →
      ∀ batch ∈ batches, 40 < batch.length) := by
  constructor
  · intro qs hqs q hq
    cases hgb : get_query_batches l B with
    | error e => rw [get_query, hgb] at hqs; exact absurd hqs (by simp [Except.map])
    | ok batches =>
      rw [get_query, hgb] at hqs
      simp only [Except.map, Except.ok.injEq] at hqs
      subst hqs
      obtain ⟨batch, _, rfl⟩ := List.mem_map.mp hq
      exact ⟨api ++ "?q=isbn:" ++ String.intercalate "+OR+isbn:" batch, rfl⟩
  · intro h40 batches hb batch hbm
    have hB : 0 < B := by omega
    rw [get_query_batches_pos l B hB] at hb
    injection hb with hb
    subst hb
    obtain ⟨i, hi, rfl⟩ := List.mem_map.mp hbm
    rw [batch_length_eq l B.toNat i (by simpa using hi)]
    omega

/-- C10 witness: the rendered query for one identifier carries the suffix,
and with batch size 41 a full batch has 41 > 40 members. -/
theorem c10_witness :
    (∃ p, "A?q=isbn:x&maxResults=40" = p ++ "&maxResults=40") ∧
    40 < (List.replicate 41 "x").length :=
  ⟨(c10_max_results "A" ["x"] 1).1 ["A?q=isbn:x&maxResults=40"] (by decide)
      "A?q=isbn:x&maxResults=40" (by decide),
   (c10_max_results "A" (List.replicate 41 "x") 41).2 (by decide)
      [List.replicate 41 "x"] (by decide) (List.replicate 41 "x") (by decide)⟩

/-- `Except` bind on a success value. -/
theorem except_ok_bind {ε α β : Type} (a : α) (f : α → Except ε β) :
    (Except.ok a >>= f) = f a := rfl

/-- `Except` bind on an error value. -/
theorem except_error_bind {ε α β : Type} (e : ε) (f : α → Except ε β) :
    ((Except.error e : Except ε α) >>= f) = Except.error e := rfl

/-- `pure` in the `Except` monad is `Except.ok`. -/
theorem except_pure_eq_ok {ε α : Type} (a : α) :
    (pure a : Except ε α) = Except.ok a := rfl

/-- Writing one batch's artifact adds exactly that batch index to the
checkpoint namespace. -/
theorem artifact_exists_write (store : Store) (idx j : Nat) (recs : List Record) :
    artifact_exists (write_artifact store idx recs) j = true ↔
      idx = j ∨ artifact_exists store j = true := by
  induction store with
  | nil => simp [write_artifact, artifact_exists]
  | cons a rest ih =>
    rw [write_artifact]
    by_cases h1 : idx < a.1
    · rw [if_pos h1]
      simp [artifact_exists, List.any_cons]
    · rw [if_neg h1]
      by_cases h2 : idx = a.1
      · rw [if_pos h2]
        simp [artifact_exists, List.any_cons, h2]
      · rw [if_neg h2]
        simp only [artifact_exists, List.any_cons] at ih ⊢
        simp only [Bool.or_eq_true] at ih ⊢
        rw [ih]
        tauto

/-- After a successful fold of `safe_get_and_write` over a list of batch
indices, an artifact exists for every index of the list and for every
index that existed before. -/
theorem foldlM_write_exists (env : FetchEnv) :
    ∀ (L : List Nat) (st st2 : Store),
      L.foldlM (safe_get_and_write env) st = Except.ok st2 →
      ∀ i, (i ∈ L ∨ artifact_exists st i = true) → artifact_exists st2 i = true := by
  intro L
  induction L with
  | nil =>
    intro st st2 h i hi
    rw [List.foldlM_nil, except_pure_eq_ok] at h
    injection h with h
    subst h
    rcases hi with hi | hi
    · simp at hi
    · exact hi
  | cons j L ih =>
    intro st st2 h i hi
    rw [List.foldlM_cons] at h
    cases hp : parse_response (env j) with
    | none =>
      rw [show safe_get_and_write env st j = Except.error "unhandled exception in fetch task" by
          simp only [safe_get_and_write, hp], except_error_bind] at h
      exact absurd h (by simp)
    | some books =>
      rw [show safe_get_and_write env st j = Except.ok (write_artifact st j books) by
          simp only [safe_get_and_write, hp], except_ok_bind] at h
      refine ih (write_artifact st j books) st2 h i ?_
      rcases hi with hi | hi
      · rcases List.mem_cons.mp hi with hi | hi
        · exact Or.inr ((artifact_exists_write st j i books).mpr (Or.inl hi.symm))
        · exact Or.inl hi
      · exact Or.inr ((artifact_exists_write st j i books).mpr (Or.inr hi))

/-- A successful fetch phase leaves an artifact for every batch index of
the run, whether it was skipped (already present) or fetched. -/
theorem create_coroutines_all_exist (env : FetchEnv) (store st1 : Store) (N : Nat)
    (h : create_coroutines env store N = Except.ok st1) :
    ∀ i, i < N → artifact_exists st1 i = true := by
  intro i hi
  rw [create_coroutines] at h
  by_cases he : artifact_exists store i = true
  · exact foldlM_write_exists env _ store st1 h i (Or.inr he)
  · refine foldlM_write_exists env _ store st1 h i (Or.inl ?_)
    simp [scheduled_batches, List.mem_filter, List.mem_range, hi, he]

/-- When every batch index of the run already has an artifact, nothing is
scheduled. -/
theorem scheduled_batches_eq_nil (st : Store) (N : Nat)
    (h : ∀ i, i < N → artifact_exists st i = true) :
    scheduled_batches st N = [] := by
  rw [scheduled_batches, List.filter_eq_nil_iff]
  intro a ha
  simp [h a (List.mem_range.mp ha)]

/-- C5: with artifacts already present for batches 0 and 2 and four batches
in the run, exactly batches 1 and 3 are scheduled for fetching, and the
final merge still contains the records of all four artifacts in index
order. -/
theorem c5_resumability (env : FetchEnv) (r0 r1 r2 r3 : List Record)
    (h1 : parse_response (env 1) = some r1)
    (h3 : parse_response (env 3) = some r3) :
    scheduled_batches [(0, r0), (2, r2)] 4 = [1, 3] ∧
    run_pipeline env [(0, r0), (2, r2)] 4 =
      Except.ok ([(0, r0), (1, r1), (2, r2), (3, r3)], r0 ++ r1 ++ r2 ++ r3) := by
  refine ⟨rfl, ?_⟩
  have s1 : safe_get_and_write env [(0, r0), (2, r2)] 1 =
      Except.ok [(0, r0), (1, r1), (2, r2)] := by
    simp only [safe_get_and_write, h1]
    rfl
  have s3 : safe_get_and_write env [(0, r0), (1, r1), (2, r2)] 3 =
      Except.ok [(0, r0), (1, r1), (2, r2), (3, r3)] := by
    simp only [safe_get_and_write, h3]
    rfl
  rw [run_pipeline, create_coroutines,
    show scheduled_batches [(0, r0), (2, r2)] 4 = [1, 3] from rfl,
    List.foldlM_cons, s1, except_ok_bind, List.foldlM_cons, s3, except_ok_bind,
    List.foldlM_nil]
  rw [except_pure_eq_ok, except_ok_bind,
    show merge_files [(0, r0), (1, r1), (2, r2), (3, r3)] =
      Except.ok (r0 ++ (r1 ++ (r2 ++ (r3 ++ [])))) from rfl,
    except_ok_bind]
  simp [except_pure_eq_ok]

/-- C5 witness: all four record lists empty, a trivially succeeding
environment. -/
theorem c5_witness :
    scheduled_batches [(0, ([] : List Record)), (2, [])] 4 = [1, 3] ∧
    run_pipeline (fun _ => FetchResult.ok []) [(0, []), (2, [])] 4 =
      Except.ok ([(0, []), (1, []), (2, []), (3, [])],
        ([] : List Record) ++ [] ++ [] ++ []) :=
  c5_resumability (fun _ => FetchResult.ok []) [] [] [] [] rfl rfl

/-- C7: after any successful run, a second run over the same number of
batches schedules no fetch at all — zero additional remote calls,
whatever the remote would answer — and returns the identical checkpoint
store and the identical OutputArtifact rows. -/
theorem c7_idempotence (env1 env2 : FetchEnv) (store0 st1 : Store)
    (numBatches : Nat) (out1 : List Record)
    (h : run_pipeline env1 store0 numBatches = Except.ok (st1, out1)) :
    scheduled_batches st1 numBatches = [] ∧
    run_pipeline env2 st1 numBatches = Except.ok (st1, out1) := by
  rw [run_pipeline] at h
  cases hc : create_coroutines env1 store0 numBatches with
  | error e =>
    rw [hc, except_error_bind] at h
    exact absurd h (by simp)
  | ok st =>
    rw [hc, except_ok_bind] at h
    cases hm : merge_files st with
    | error e =>
      rw [hm, except_error_bind] at h
      exact absurd h (by simp)
    | ok rows =>
      rw [hm, except_ok_bind, except_pure_eq_ok] at h
      injection h with h
      rw [Prod.mk.injEq] at h
      obtain ⟨heq1, heq2⟩ := h
      have hex := create_coroutines_all_exist env1 store0 st numBatches hc
      have hsch0 : scheduled_batches st numBatches = [] :=
        scheduled_batches_eq_nil st numBatches hex
      constructor
      · rw [← heq1]
        exact hsch0
      · rw [run_pipeline, create_coroutines, ← heq1, hsch0, List.foldlM_nil,
          except_pure_eq_ok, except_ok_bind, hm, except_ok_bind, except_pure_eq_ok,
          heq2]

/-- C7 witness: one batch, empty initial store. -/
theorem c7_witness :
    scheduled_batches [(0, ([] : List Record))] 1 = [] ∧
    run_pipeline (fun _ => FetchResult.keyError) [(0, [])] 1 =
      Except.ok ([(0, [])], []) :=
  c7_idempotence (fun _ => FetchResult.ok []) (fun _ => FetchResult.keyError)
    [] [(0, [])] 1 [] (by decide)

/-- C9: batch 0's remote call fails with a transport (client) error while
batch 1 parses normally: both batches are still scheduled, the run reaches
the merge, batch 0's artifact holds zero records, and batch 1's records
appear unaltered as the OutputArtifact rows. -/
theorem c9_failure_isolation (env : FetchEnv) (status : Option Nat)
    (msg : Option String) (recs : List Record)
    (h0 : env 0 = FetchResult.clientError status msg)
    (h1 : parse_response (env 1) = some recs) :
    scheduled_batches ([] : Store) 2 = [0, 1] ∧
    run_pipeline env [] 2 = Except.ok ([(0, []), (1, recs)], recs) := by
  refine ⟨rfl, ?_⟩
  have hp0 : parse_response (env 0) = some [] := by
    rw [h0, parse_response]
  have s0 : safe_get_and_write env [] 0 = Except.ok [(0, [])] := by
    simp only [safe_get_and_write, hp0]
    rfl
  have s1 : safe_get_and_write env [(0, [])] 1 = Except.ok [(0, []), (1, recs)] := by
    simp only [safe_get_and_write, h1]
    rfl
  rw [run_pipeline, create_coroutines,
    show scheduled_batches ([] : Store) 2 = [0, 1] from rfl,
    List.foldlM_cons, s0, except_ok_bind, List.foldlM_cons, s1, except_ok_bind,
    List.foldlM_nil, except_pure_eq_ok, except_ok_bind,
    show merge_files [(0, []), (1, recs)] = Except.ok ([] ++ (recs ++ [])) from rfl,
    except_ok_bind]
  simp [except_pure_eq_ok]

/-- C9 witness: a concrete environment failing on batch 0 and returning an
empty item list for batch 1. -/
theorem c9_witness :
    scheduled_batches ([] : Store) 2 = [0, 1] ∧
    run_pipeline (fun i => if i = 0 then FetchResult.clientError (some 500) none
      else FetchResult.ok []) [] 2 =
      Except.ok ([(0, []), (1, ([] : List Record))], []) :=
  c9_failure_isolation
    (fun i => if i = 0 then FetchResult.clientError (some 500) none
      else FetchResult.ok [])
    (some 500) none [] rfl rfl

/-- Acquiring the semaphore (a pending task entering `async with sem`)
raises the number of running tasks by exactly one. -/
theorem runningCount_set_running (ts : List TaskState) (i : Nat)
    (h : ts.get? i = some TaskState.pending) :
    runningCount (ts.set i TaskState.running) = runningCount ts + 1 := by
  induction ts generalizing i with
  | nil => simp at h
  | cons t ts ih =>
    cases i with
    | zero =>
      simp only [List.get?_cons_zero, Option.some.injEq] at h
      subst h
      simp [runningCount, List.countP_cons]
    | succ i =>
      simp only [List.get?_cons_succ] at h
      simp only [List.set_cons_succ, runningCount, List.countP_cons]
      have := ih i h
      simp only [runningCount] at this
      omega

/-- Releasing the semaphore (a running task leaving `async with sem`, on
either exit path) lowers the number of running tasks by exactly one. -/
theorem runningCount_set_done (ts : List TaskState) (i : Nat)
    (h : ts.get? i = some TaskState.running) :
    runningCount (ts.set i TaskState.done) + 1 = runningCount ts := by
  induction ts generalizing i with
  | nil => simp at h
  | cons t ts ih =>
    cases i with
    | zero =>
      simp only [List.get?_cons_zero, Option.some.injEq] at h
      subst h
      simp [runningCount, List.countP_cons]
    | succ i =>
      simp only [List.get?_cons_succ] at h
      simp only [List.set_cons_succ, runningCount, List.countP_cons]
      have := ih i h
      simp only [runningCount] at this
      omega

/-- Before the fetch phase starts no task holds a semaphore slot. -/
theorem runningCount_replicate_pending (n : Nat) :
    runningCount (List.replicate n TaskState.pending) = 0 := by
  induction n with
  | zero => rfl
  | succ n ih =>
    rw [List.replicate_succ, runningCount, List.countP_cons]
    simp only [runningCount] at ih
    simp [ih]

/-- C6: in every state reachable during the fetch phase — any number of
scheduled batches `n`, any semaphore capacity `maxConc` — at most
`maxConc` tasks are inside `async with sem` simultaneously; moreover from
any reachable state every running task can exit on either path (normal or
failed), and that exit releases exactly its one slot. -/
theorem c6_concurrency_bound (maxConc n : Nat) (ts : List TaskState)
    (h : SemReachable maxConc n ts) :
    runningCount ts ≤ maxConc ∧
    ∀ (i : Nat) (failed : Bool), ts.get? i = some TaskState.running →
      SemStep maxConc ts (ts.set i TaskState.done) ∧
      runningCount (ts.set i TaskState.done) + 1 = runningCount ts := by
  constructor
  · induction h with
    | refl => rw [runningCount_replicate_pending]; exact Nat.zero_le _
    | tail hab hstep ih =>
      cases hstep with
      | start i hp hcap =>
        rw [runningCount_set_running _ i hp]
        omega
      | finish i failed hr =>
        have := runningCount_set_done _ i hr
        omega
  · intro i failed hr
    exact ⟨SemStep.finish ts i failed hr, runningCount_set_done ts i hr⟩

/-- C6 witness: capacity 1, two tasks, the state after task 0 acquired the
slot; finishing task 0 (on the failed path) frees the slot. -/
theorem c6_witness :
    runningCount [TaskState.running, TaskState.pending] ≤ 1 ∧
    runningCount ([TaskState.running, TaskState.pending].set 0 TaskState.done) + 1 =
      runningCount [TaskState.running, TaskState.pending] :=
  have h := c6_concurrency_bound 1 2 [TaskState.running, TaskState.pending]
    (Relation.ReflTransGen.single
      (SemStep.start (List.replicate 2 TaskState.pending) 0 (by decide) (by decide)))
  ⟨h.1, (h.2 0 true (by decide)).2⟩

end BooksCrawler

